import Mathlib

/-!
Verification of the djblets condition-widget / policy-validator logic.

The definitions below are a shallow embedding of the Python sources:

* `djblets/webapi/models.py` — `BaseWebAPIToken.validate_policy`,
  `BaseWebAPIToken._validate_policy_section`,
  `BaseWebAPIToken._get_valid_policy_ids`.
* `djblets/forms/widgets.py` — `ConditionsWidget` (the `choices` lazy
  property and `get_context`).
* `djblets/forms/fields.py` — `ConditionsField.to_python`.

Python values flowing through the policy validator are modelled by the
`PyVal` inductive; Python dicts are association lists in insertion order
(Python 3.7+ dict semantics).  Raising an exception is modelled by
returning an explicit result constructor.
-/

namespace Djblets

/-- A single-quote character, used to build the exact Python error-message
strings. -/
def sq : String := String.singleton (Char.ofNat 39)

/-- Model of a Python value as it appears in a parsed JSON policy document
(or any object handed to `validate_policy`).  Dicts are association lists
in insertion order; keys may be arbitrary values, as in Python. -/
inductive PyVal where
  | pystr (s : String)
  | pyint (n : Int)
  | pybool (b : Bool)
  | pynone
  | pylist (xs : List PyVal)
  | pydict (entries : List (PyVal × PyVal))
  | pyother (tag : String)

/-- Python `==` between a dict key and a `str`: only an equal string
compares equal (no non-`str` object equals a `str`).  All key comparisons
performed by the policy validator are against string literals or
string-checked keys, so this is the only equality the embedding needs. -/
def pyKeyEqStr (k : PyVal) (s : String) : Bool :=
  match k with
  | .pystr t => t == s
  | _ => false

/-- Python `"s" in d` for a dict modelled as an association list. -/
def pydictHasKey (entries : List (PyVal × PyVal)) (k : String) : Bool :=
  entries.any (fun e => pyKeyEqStr e.1 k)

/-- Python `d["s"]` for a dict modelled as an association list (first
matching entry; entries of a real Python dict have unique keys). -/
def pydictGet (entries : List (PyVal × PyVal)) (k : String) :
    Option PyVal :=
  (entries.find? (fun e => pyKeyEqStr e.1 k)).map (fun e => e.2)

/-- Approximation of Python `str()` as used in the `%s` interpolations of
the validator's error messages.  The validator only ever interpolates
strings (and, on the error paths exercised here, simple scalars). -/
def pyvalStr : PyVal → String
  | .pystr s => s
  | .pyint n => toString n
  | .pybool b => if b then "True" else "False"
  | .pynone => "None"
  | .pylist _ => "[...]"
  | .pydict _ => "\x7b...\x7d"
  | .pyother tag => tag

/-- Python `isinstance(v, list)`. -/
def isPyList : PyVal → Bool
  | .pylist _ => true
  | _ => false

/-- Outcome of a call to the policy validator.  `validationError` is a
raised `django.core.exceptions.ValidationError`; `notImplementedError`
models `get_root_resource` raising `NotImplementedError` on the abstract
base class; `pyError` models a non-`ValidationError` Python exception
(`AttributeError`/`KeyError`) escaping the validator. -/
inductive ValidateResult where
  | ok
  | validationError (msg : String)
  | notImplementedError
  | pyError (msg : String)
deriving DecidableEq

/-- A node of the web-API resource tree, as consumed by
`_get_valid_policy_ids`: an optional `policy_id` attribute (`none` models
the attribute being absent, i.e. `hasattr` false) and the two kinds of
child lists. -/
inductive Resource where
  | mk (policy_id : Option String)
       (list_child_resources : List Resource)
       (item_child_resources : List Resource)

/-- The `policy_id` attribute of a resource node (`none` = absent). -/
def Resource.policy_id : Resource → Option String
  | .mk pid _ _ => pid

/-- The `list_child_resources` attribute of a resource node. -/
def Resource.list_child_resources : Resource → List Resource
  | .mk _ lcs _ => lcs

/-- The `item_child_resources` attribute of a resource node. -/
def Resource.item_child_resources : Resource → List Resource
  | .mk _ _ ics => ics

/-- Python `set.add`: the accumulator is a set of strings, modelled as a
duplicate-free list; membership facts are all that is ever used of it. -/
def setAdd (s : List String) (x : String) : List String :=
  if x ∈ s then s else s ++ [x]

mutual

/-- Embedding of `BaseWebAPIToken._get_valid_policy_ids`: add this node's
`policy_id` when the attribute is present, then recurse into the
`list_child_resources` and then the `item_child_resources`, threading the
mutable `result` set through. -/
def getValidPolicyIds (resource : Resource) (result : List String) :
    List String :=
  match resource with
  | .mk pid lcs ics =>
    let result1 :=
      match pid with
      | some s => setAdd result s
      | none => result
    let result2 := getValidPolicyIdsList lcs result1
    getValidPolicyIdsList ics result2

/-- The `for child_resource in ...` loops of `_get_valid_policy_ids`,
recursing over a child list in order. -/
def getValidPolicyIdsList (resources : List Resource)
    (result : List String) : List String :=
  match resources with
  | [] => result
  | c :: rest => getValidPolicyIdsList rest (getValidPolicyIds c result)

end

/-- Message: the policy is not a dict. -/
def msgPolicyNotObject : String := "The policy must be a JSON object."

/-- Message: no "resources" key. -/
def msgMissingResources : String :=
  "The policy is missing a \"resources\" section."

/-- Message: the "resources" value is not a dict. -/
def msgResourcesNotObject : String :=
  "The policy" ++ sq ++ "s \"resources\" section must be a JSON object."

/-- Message: the "resources" dict is empty. -/
def msgResourcesEmpty : String :=
  "The policy" ++ sq ++ "s \"resources\" section must not be empty."

/-- Message: a section is not a dict. -/
def msgSectionNotObject (fullSectionName : String) : String :=
  "The \"" ++ fullSectionName ++ "\" section must be a JSON object."

/-- Message: a section has neither "allow" nor "block". -/
def msgSectionNeedsRules (fullSectionName : String) : String :=
  "The \"" ++ fullSectionName ++
    "\" section must have \"allow\" and/or \"block\" rules."

/-- Message: a section's "allow" value is not a list. -/
def msgAllowNotList (fullSectionName : String) : String :=
  "The \"" ++ fullSectionName ++ "\" section" ++ sq ++
    "s \"allow\" rule must be a list."

/-- Message: a section's "block" value is not a list. -/
def msgBlockNotList (fullSectionName : String) : String :=
  "The \"" ++ fullSectionName ++ "\" section" ++ sq ++
    "s \"block\" rule must be a list."

/-- Message: an unknown policy ID. -/
def msgInvalidPolicyId (policyId : String) : String :=
  "\"" ++ policyId ++ "\" is not a valid resource policy ID."

/-- Message: a subsection key is not a string. -/
def msgSubsectionNotString (subsectionName : String) (policyId : String) :
    String :=
  subsectionName ++ " must be a string in \"resources." ++ policyId ++ "\""

/-- Embedding of `BaseWebAPIToken._validate_policy_section`: look the
section up in its parent, require it to be a dict holding at least one of
"allow"/"block", each a list when present.  Every caller passes a
`section_name` that is a string (the literal `'*'` or a key that already
passed the string check), so the name is taken as a `String` here. -/
def validatePolicySection (parentSection : List (PyVal × PyVal))
    (sectionName : String) (fullSectionName : String) : ValidateResult :=
  match pydictGet parentSection sectionName with
  | none => .pyError "KeyError"
  | some sect =>
    match sect with
    | .pydict s =>
      if !pydictHasKey s "allow" && !pydictHasKey s "block" then
        .validationError (msgSectionNeedsRules fullSectionName)
      else if pydictHasKey s "allow" &&
          !(match pydictGet s "allow" with
            | some v => isPyList v
            | none => false) then
        .validationError (msgAllowNotList fullSectionName)
      else if pydictHasKey s "block" &&
          !(match pydictGet s "block" with
            | some v => isPyList v
            | none => false) then
        .validationError (msgBlockNotList fullSectionName)
      else
        .ok
    | _ => .validationError (msgSectionNotObject fullSectionName)

/-- The inner `for subsection_name, subsection in section.items()` loop of
`validate_policy`: each subsection key must be a string, and each
subsection must pass `_validate_policy_section` against its parent
section. -/
def validateSubsections (sect : List (PyVal × PyVal))
    (policyId : String) : List (PyVal × PyVal) → ValidateResult
  | [] => .ok
  | (subsectionName, _) :: rest =>
    match subsectionName with
    | .pystr sub =>
      match validatePolicySection sect sub
          ("resources." ++ policyId ++ "." ++ sub) with
      | .ok => validateSubsections sect policyId rest
      | e => e
    | _ =>
      .validationError
        (msgSubsectionNotString (pyvalStr subsectionName) policyId)

/-- One iteration of the `for policy_id, section in resource_policies`
loop of `validate_policy`: membership of `policy_id` in the valid-ID set
(a non-string key is never a member of a set of strings), then the
subsection walk.  Calling `.items()` on a non-dict section raises
`AttributeError`. -/
def processOnePolicy (validPolicyIds : List String) (policyId : PyVal)
    (sect : PyVal) : ValidateResult :=
  match policyId with
  | .pystr pid =>
    if !validPolicyIds.contains pid then
      .validationError (msgInvalidPolicyId (pyvalStr policyId))
    else
      match sect with
      | .pydict items => validateSubsections items pid items
      | _ => .pyError "AttributeError"
  | _ =>
    -- A non-string key is never a member of the (string) valid-ID set,
    -- so `policy_id not in valid_policy_ids` holds and the same
    -- invalid-ID error is raised.
    .validationError (msgInvalidPolicyId (pyvalStr policyId))

/-- The `for policy_id, section in resource_policies` loop of
`validate_policy`, failing on the first bad entry. -/
def processResourcePolicies (validPolicyIds : List String) :
    List (PyVal × PyVal) → ValidateResult
  | [] => .ok
  | (policyId, sect) :: rest =>
    match processOnePolicy validPolicyIds policyId sect with
    | .ok => processResourcePolicies validPolicyIds rest
    | e => e

/-- Embedding of `BaseWebAPIToken.validate_policy`.  `rootResource` stands
for what `cls.get_root_resource()` would produce: `none` models the
abstract base class, whose `get_root_resource` raises
`NotImplementedError`.  The steps mirror the source in order: dict check,
empty-policy short circuit, "resources" presence/shape checks, the
wildcard section check, then the named-section loop (which is the only
consumer of the resource tree). -/
def validatePolicy (rootResource : Option Resource) (policy : PyVal) :
    ValidateResult :=
  match policy with
  | .pydict entries =>
    if entries.isEmpty then
      .ok
    else if !pydictHasKey entries "resources" then
      .validationError msgMissingResources
    else
      match pydictGet entries "resources" with
      | none => .pyError "KeyError"
      | some resourcesSection =>
        match resourcesSection with
        | .pydict rs =>
          if rs.isEmpty then
            .validationError msgResourcesEmpty
          else
            let wildcardResult :=
              if pydictHasKey rs "*" then
                validatePolicySection rs "*" "resources.*"
              else
                .ok
            match wildcardResult with
            | .ok =>
              let resourcePolicies :=
                rs.filter (fun e => !pyKeyEqStr e.1 "*")
              if resourcePolicies.isEmpty then
                .ok
              else
                match rootResource with
                | none => .notImplementedError
                | some root =>
                  processResourcePolicies (getValidPolicyIds root [])
                    resourcePolicies
            | e => e
        | _ => .validationError msgResourcesNotObject
  | _ => .validationError msgPolicyNotObject

/-! ## Conditions widget (`djblets/forms/widgets.py`) -/

/-- Modelled from the spec: a `ValueField` collaborator
(`BaseConditionValueField`, in `djblets/conditions/values.py`, outside
`src/`): it can prepare a raw value for widget display and carries the
JavaScript model/view descriptors serialized by the widget. -/
structure ValueField where
  prepareValueForWidget : Option PyVal → Option PyVal
  jsModelClassName : String
  jsModelData : PyVal
  jsViewClassName : String
  jsViewData : PyVal

/-- A value-field slot as stored on an operator or choice: absent, a
ready instance, or a zero-argument callable returning an instance or
`None` (spec §6: "descriptor/factory or absent"). -/
inductive ValueFieldSource where
  | absent
  | field (v : ValueField)
  | factory (f : Unit → Option ValueField)

/-- Embedding of `ConditionsWidget._normalize_value_field`: call the
value when it is callable, otherwise return it directly. -/
def normalizeValueField : ValueFieldSource → Option ValueField
  | .absent => none
  | .field v => some v
  | .factory f => f ()

/-- Modelled from the spec: a `ConditionOperator` collaborator
(`djblets/conditions/operators.py`, outside `src/`): stable identifier,
display name, custom-value-field flag and value-field slot (§6). -/
structure ConditionOperator where
  operator_id : Option String
  name : Option String
  has_custom_value_field : Bool
  value_field : ValueFieldSource

/-- Modelled from the spec: a `ConditionChoice` collaborator
(`djblets/conditions/choices.py`, outside `src/`): stable identifier,
display name, default value-field descriptor and ordered operator
collection (§3, §6). -/
structure ConditionChoice where
  choice_id : Option String
  name : Option String
  default_value_field : ValueFieldSource
  operators : List ConditionOperator

/-- Modelled from the spec: `Choice.get_operator(id) -> Operator | fails
NotFound` (§6): look the operator up by identifier in the choice's
ordered operator collection; `none` models
`ConditionOperatorNotFoundError`. -/
def ConditionChoice.get_operator (c : ConditionChoice)
    (operatorId : String) : Option ConditionOperator :=
  c.operators.find? (fun o => o.operator_id == some operatorId)

/-- Modelled from the spec: the `ConditionChoices` registry contract
`get_choice(id, kwargs) -> Choice | fails NotFound` (§6): look the choice
up by identifier; `none` models `ConditionChoiceNotFoundError`.  The
`choice_kwargs` are forwarded to choice construction and do not affect
which choice is found. -/
def getChoice (choices : List ConditionChoice) (choiceId : String)
    (_choiceKwargs : List (String × PyVal)) : Option ConditionChoice :=
  choices.find? (fun c => c.choice_id == some choiceId)

/-- The configured `choices` value of a `ConditionsWidget`
(`_orig_choices`): either a ready `ConditionChoices` instance or a
callable producing one (`ConditionsWidgetChoices`). -/
inductive ChoicesSource where
  | inst (c : List ConditionChoice)
  | callable (f : Unit → List ConditionChoice)

/-- The choices-related state of a `ConditionsWidget`: the configured
value (`_orig_choices`) and the cache (`_choices`, `None` initially). -/
structure ChoicesState where
  origChoices : ChoicesSource
  cachedChoices : Option (List ConditionChoice)

/-- State of `ConditionsWidget.__init__` for the choices binding:
`_orig_choices = choices; _choices = None`. -/
def initChoicesState (choices : ChoicesSource) : ChoicesState :=
  { origChoices := choices, cachedChoices := none }

/-- Embedding of the `ConditionsWidget.choices` property getter.  Returns
the resolved registry, the updated state, and how many times the
configured callable was invoked during this access. -/
def choicesGet (s : ChoicesState) :
    List ConditionChoice × ChoicesState × Nat :=
  match s.cachedChoices with
  | some choices => (choices, s, 0)
  | none =>
    match s.origChoices with
    | .inst choices =>
      (choices, { s with cachedChoices := some choices }, 0)
    | .callable f =>
      let choices := f ()
      (choices, { s with cachedChoices := some choices }, 1)

/-- Embedding of the `ConditionsWidget.choices` property setter:
`_orig_choices = choices; _choices = None`. -/
def choicesSet (_s : ChoicesState) (choices : ChoicesSource) :
    ChoicesState :=
  { origChoices := choices, cachedChoices := none }

/-- Iterates `n` successive accesses of the `choices` property, returning the list
of values produced and the total number of callable invocations. -/
def choicesGetN : Nat → ChoicesState →
    List (List ConditionChoice) × ChoicesState × Nat
  | 0, s => ([], s, 0)
  | n + 1, s =>
    let r1 := choicesGet s
    let r2 := choicesGetN n r1.2.1
    (r1.1 :: r2.1, r2.2.1, r1.2.2 + r2.2.2)

/-- The HTML attribute dictionaries handled by `get_context`: only the
`id` and `disabled` keys are ever read or written there. -/
structure WidgetAttrs where
  id : Option String
  disabled : Bool
deriving DecidableEq

/-- Embedding of `self.build_attrs(attrs or {})`: the passed attributes
override/extend the widget's base attributes. -/
def buildAttrs (base : WidgetAttrs) (attrs : Option WidgetAttrs) :
    WidgetAttrs :=
  match attrs with
  | none => base
  | some a =>
    { id := match a.id with
        | some i => some i
        | none => base.id,
      disabled := a.disabled || base.disabled }

/-- A rendered sub-widget inside the conditions widget's context.  A
`select` records the arguments `get_context` hands to the Django
`Select.render` call: field name, selected value, attributes, and the
option items temporarily appended by `_add_widget_choices` (an empty list
means the widget's own live option list is used unchanged).  `radio` is
the mode widget render; `hiddenInput` is a rendered
`widgets.HiddenInput`. -/
inductive RenderElem where
  | select (name : String) (value : String) (attrs : WidgetAttrs)
      (extraItems : List (String × String))
  | radio (name : String) (value : String) (attrs : WidgetAttrs)
  | hiddenInput (name : String) (value : String)

/-- One entry of `rendered_rows`: the rendered choice column (a select
possibly followed by a hidden input), the rendered operator column, and
the row's error message. -/
structure RenderedRow where
  choice : List RenderElem
  operator : List RenderElem
  error : Option String

/-- One entry of `serialized_rows` (the `row_data` dict). -/
structure RowData where
  choiceID : String
  operatorID : String
  value : Option PyVal
  valid : Bool
  error : Option String

/-- One condition row of the serialized condition set handed to the
widget (`ConditionData`): the stored choice and operator identifiers and
a raw value (`condition.get('value')`). -/
structure ConditionData where
  choice : String
  op : String
  value : Option PyVal

/-- The serialized condition set handed to the widget
(`ConditionSetData`): an optional mode and the condition rows. -/
structure ConditionSetData where
  mode : Option String
  conditions : List ConditionData

/-- Modelled from the spec: `ConditionSet.MODE_ALL`, the default mode
used by `get_context` when the value has no mode (§3 names the `ALL`
mode; the constant lives in `djblets/conditions/conditions.py`, outside
`src/`). -/
def MODE_ALL : String := "all"

/-- Serialized JavaScript descriptors of a value field
(`_serialize_value_field` output; `none` models the empty dict returned
for a missing field). -/
structure SerializedValueField where
  modelClassName : String
  modelData : PyVal
  viewClassName : String
  viewData : PyVal

/-- Embedding of `ConditionsWidget._serialize_value_field`. -/
def serializeValueField : Option ValueField →
    Option SerializedValueField
  | some vf =>
    some { modelClassName := vf.jsModelClassName,
           modelData := vf.jsModelData,
           viewClassName := vf.jsViewClassName,
           viewData := vf.jsViewData }
  | none => none

/-- Embedding of `ConditionsWidget._get_value_field`: normalize the
operator's value-field slot. -/
def getValueField (operator : ConditionOperator) : Option ValueField :=
  normalizeValueField operator.value_field

/-- Output of `ConditionsWidget._serialize_operator`. -/
structure SerializedOperator where
  id : Option String
  name : Option String
  useValue : Bool
  valueField : Option SerializedValueField

/-- Embedding of `ConditionsWidget._serialize_operator`. -/
def serializeOperator (operator : ConditionOperator) :
    SerializedOperator :=
  match getValueField operator with
  | none =>
    { id := operator.operator_id, name := operator.name,
      useValue := false, valueField := none }
  | some vf =>
    { id := operator.operator_id, name := operator.name,
      useValue := true,
      valueField :=
        if operator.has_custom_value_field then
          serializeValueField (some vf)
        else
          none }

/-- Output of `ConditionsWidget._serialize_choice`. -/
structure SerializedChoice where
  id : Option String
  name : Option String
  valueField : Option SerializedValueField
  operators : List SerializedOperator

/-- Embedding of `ConditionsWidget._serialize_choice`. -/
def serializeChoice (choice : ConditionChoice) : SerializedChoice :=
  { id := choice.choice_id, name := choice.name,
    valueField :=
      serializeValueField (normalizeValueField choice.default_value_field),
    operators := choice.operators.map serializeOperator }

/-- The state of a `ConditionsWidget` instance used by `get_context`. -/
structure ConditionsWidget where
  choices : ChoicesState
  choiceKwargs : List (String × PyVal)
  conditionErrors : List (Nat × String)
  attrs : WidgetAttrs

/-- Lookup in the widget's `condition_errors` dict
(`self.condition_errors.get(i)`). -/
def conditionErrorsGet (errors : List (Nat × String)) (i : Nat) :
    Option String :=
  (errors.find? (fun e => e.1 == i)).map (fun e => e.2)

/-- Error message rendered for a row whose choice no longer resolves. -/
def msgChoiceGone : String :=
  "This choice no longer exists. You will need to delete the condition " ++
    "in order to make changes."

/-- Error message rendered for a row whose operator no longer
resolves. -/
def msgOperatorGone : String :=
  "This operator no longer exists. You will need to delete the " ++
    "condition in order to make changes."

/-- The full output of `ConditionsWidget.get_context`. -/
structure ConditionsContext where
  field_id : Option String
  field_name : String
  rendered_mode : RenderElem
  rendered_rows : List RenderedRow
  serialized_choices : List SerializedChoice
  serialized_rows : List RowData

/-- One iteration of the `for i, condition in enumerate(...)` loop of
`ConditionsWidget.get_context`: resolve the choice and operator, compute
the row's error and `valid` flag, render both dropdowns (disabling them
and appending identifier-preserving hidden inputs when the row is
invalid), and emit the render data and the serialized `row_data`.  The
loop rebinds `widget_attrs` when a row is invalid, so the possibly
updated attributes are returned and threaded into later rows, exactly as
in the source. -/
def processCondition (w : ConditionsWidget)
    (choices : List ConditionChoice) (widgetAttrs : WidgetAttrs)
    (widgetId : Option String) (name : String) (i : Nat)
    (condition : ConditionData) :
    RenderedRow × RowData × WidgetAttrs :=
  let choiceId := condition.choice
  let operatorId := condition.op
  let conditionValue := condition.value
  -- The try/except block resolving the choice and operator.
  let resolved :
      Option ConditionChoice × Option ConditionOperator × Option String :=
    match getChoice choices choiceId w.choiceKwargs with
    | none => (none, none, some msgChoiceGone)
    | some choice =>
      match choice.get_operator operatorId with
      | none => (some choice, none, some msgOperatorGone)
      | some operator =>
        (some choice, some operator, conditionErrorsGet w.conditionErrors i)
  let choice := resolved.1
  let operator := resolved.2.1
  let error := resolved.2.2
  let valid := choice.isSome && operator.isSome
  let widgetAttrs :=
    if valid then widgetAttrs
    else { widgetAttrs with disabled := true }
  let choiceItems : List (String × String) :=
    match choice with
    | none => [(choiceId, choiceId)]
    | some _ => []
  let operatorItems : List (String × String) :=
    match choice, operator with
    | some c, some _ =>
      c.operators.filterMap (fun o =>
        match o.operator_id, o.name with
        | some oid, some onm => some (oid, onm)
        | _, _ => none)
    | _, _ => [(operatorId, operatorId)]
  let choiceName := name ++ "_choice[" ++ toString i ++ "]"
  let choiceAttrs :=
    match widgetId with
    | some wid =>
      { widgetAttrs with id := some (wid ++ "_choice_" ++ toString i) }
    | none => widgetAttrs
  let renderedChoice : List RenderElem :=
    [.select choiceName choiceId choiceAttrs choiceItems]
  let operatorName := name ++ "_operator[" ++ toString i ++ "]"
  let operatorAttrs :=
    match widgetId with
    | some wid =>
      { widgetAttrs with id := some (wid ++ "_operator_" ++ toString i) }
    | none => widgetAttrs
  let renderedOperator : List RenderElem :=
    [.select operatorName operatorId operatorAttrs operatorItems]
  let conditionValue2 :=
    if valid then
      match operator with
      | some op =>
        match getValueField op with
        | some vf => vf.prepareValueForWidget conditionValue
        | none => conditionValue
      | none => conditionValue
    else
      conditionValue
  let renderedChoice2 :=
    if valid then renderedChoice
    else renderedChoice ++ [.hiddenInput choiceName choiceId]
  let renderedOperator2 :=
    if valid then renderedOperator
    else renderedOperator ++ [.hiddenInput operatorName operatorId]
  let renderedRow : RenderedRow :=
    { choice := renderedChoice2, operator := renderedOperator2,
      error := error }
  let rowData : RowData :=
    { choiceID := choiceId, operatorID := operatorId,
      value := conditionValue2, valid := valid,
      error :=
        match error with
        | some e => if e == "" then none else some e
        | none => none }
  (renderedRow, rowData, widgetAttrs)

/-- The whole `for i, condition in enumerate(value['conditions'])` loop of
`get_context`, threading `widget_attrs` through the iterations. -/
def processConditions (w : ConditionsWidget)
    (choices : List ConditionChoice) (widgetAttrs : WidgetAttrs)
    (widgetId : Option String) (name : String) (i : Nat) :
    List ConditionData →
    List RenderedRow × List RowData × WidgetAttrs
  | [] => ([], [], widgetAttrs)
  | c :: rest =>
    let r1 := processCondition w choices widgetAttrs widgetId name i c
    let r2 := processConditions w choices r1.2.2 widgetId name (i + 1) rest
    (r1.1 :: r2.1, r1.2.1 :: r2.2.1, r2.2.2)

/-- Embedding of `ConditionsWidget.get_context`. -/
def getContext (w : ConditionsWidget) (name : String)
    (value : ConditionSetData) (attrs : Option WidgetAttrs) :
    ConditionsContext :=
  let widgetAttrs := buildAttrs w.attrs attrs
  let widgetId := widgetAttrs.id
  let modeAttrs :=
    match widgetId with
    | some _ => { widgetAttrs with id := some (name ++ "_mode") }
    | none => widgetAttrs
  let renderedMode : RenderElem :=
    .radio (name ++ "_mode") (value.mode.getD MODE_ALL) modeAttrs
  let choices := (choicesGet w.choices).1
  let r :=
    processConditions w choices widgetAttrs widgetId name 0
      value.conditions
  { field_id := widgetId,
    field_name := name,
    rendered_mode := renderedMode,
    rendered_rows := r.1,
    serialized_choices := choices.map serializeChoice,
    serialized_rows := r.2.1 }

/-! ## `ConditionsField.to_python` (`djblets/forms/fields.py`) -/

/-- The outcome of the `ConditionSet.deserialize` call made by
`ConditionsField.to_python` (the deserializer itself lives in
`djblets/conditions/conditions.py`, outside `src/`; `to_python` only
dispatches on which exception it raised).  Each error carries the
exception's message (`str(e)`), its `condition_index`, and its optional
`code` attribute (`getattr(e, 'code', None)`). -/
inductive DeserializeOutcome where
  | success
  | invalidMode (message : String)
  | choiceNotFound (message : String) (conditionIndex : Nat)
      (code : Option String)
  | operatorNotFound (message : String) (conditionIndex : Nat)
      (code : Option String)
  | invalidValue (message : String) (conditionIndex : Nat)
      (code : Option String)

/-- The result of `ConditionsField.to_python`: either a returned value
(`None` or the deserialized condition set, abstracted to `Unit`) or a
raised `django.forms.ValidationError` with its message and code. -/
inductive ToPythonResult where
  | value (conditionSet : Option Unit)
  | validationError (message : String) (code : String)
deriving DecidableEq

/-- The `ConditionsField.default_error_messages['condition_errors']` message. -/
def msgConditionErrors : String :=
  "There was an error with one of your conditions."

/-- The `ConditionsField.default_error_messages['value_required']` message. -/
def msgValueRequired : String :=
  "A value is required for this condition."

/-- Python dict assignment `d[i] = msg` on the `condition_errors` dict:
replace the first binding of `i` in place, or append a new one. -/
def conditionErrorsSet (errors : List (Nat × String)) (i : Nat)
    (msg : String) : List (Nat × String) :=
  match errors with
  | [] => [(i, msg)]
  | (j, m) :: rest =>
    if j == i then (j, msg) :: rest
    else (j, m) :: conditionErrorsSet rest i msg

/-- Embedding of `ConditionsField.to_python`.  `valueEmpty` is the
`if not value` test on the widget-provided raw value; `outcome` is what
the `ConditionSet.deserialize` call did; `conditionErrors` is the
widget's `condition_errors` dict, returned possibly updated.  An invalid
mode raises with code `invalid_mode` and records nothing; the three
row-level errors record the message under the failing row's index
(substituting the `value_required` message when the error is tagged
`code='required'`) and raise with code `condition_errors`. -/
def to_python (valueEmpty : Bool) (outcome : DeserializeOutcome)
    (conditionErrors : List (Nat × String)) :
    ToPythonResult × List (Nat × String) :=
  if valueEmpty then
    (.value none, conditionErrors)
  else
    match outcome with
    | .success => (.value (some ()), conditionErrors)
    | .invalidMode m =>
      (.validationError m "invalid_mode", conditionErrors)
    | .choiceNotFound m i c
    | .operatorNotFound m i c
    | .invalidValue m i c =>
      let message :=
        if c == some "required" then msgValueRequired else m
      (.validationError msgConditionErrors "condition_errors",
       conditionErrorsSet conditionErrors i message)

/-! ## Spec-side descriptions and concrete example values -/

/-- The spec's section-shape requirement (§4.2 step 5), written from the
spec's words: a section must be a mapping containing at least one of
`allow`/`block`, each a list when present.  Used to characterize
`validatePolicySection`. -/
def sectionShapeOk (v : PyVal) : Bool :=
  match v with
  | .pydict s =>
    (pydictHasKey s "allow" || pydictHasKey s "block") &&
    (!pydictHasKey s "allow" ||
      (match pydictGet s "allow" with
       | some x => isPyList x
       | none => false)) &&
    (!pydictHasKey s "block" ||
      (match pydictGet s "block" with
       | some x => isPyList x
       | none => false))
  | _ => false

mutual

/-- The spec's description of the valid-identifier set (§4.2 step 4),
written from the spec's words: a node's own policy identifier unioned
with the identifiers of its list children and item children. -/
def resourcePolicyIds : Resource → List String
  | .mk pid lcs ics =>
    pid.toList ++ resourcePolicyIdsList lcs ++ resourcePolicyIdsList ics

/-- Union of `resourcePolicyIds` over a child list. -/
def resourcePolicyIdsList : List Resource → List String
  | [] => []
  | c :: rest => resourcePolicyIds c ++ resourcePolicyIdsList rest

end

/-- The resource node `B` of the spec's identifier-collection example:
`policy_id="b"`, no children. -/
def exampleResourceB : Resource := .mk (some "b") [] []

/-- The resource node `C` of the spec's identifier-collection example: no
`policy_id` attribute, no children. -/
def exampleResourceC : Resource := .mk none [] []

/-- The resource node `A` of the spec's identifier-collection example:
`policy_id="root"`, list children `[B, C]`. -/
def exampleResourceA : Resource :=
  .mk (some "root") [exampleResourceB, exampleResourceC] []

/-- A root resource exposing exactly the policy ID `"a"`, used by the C6
examples. -/
def c6Resource : Resource := .mk (some "a") [] []

/-- The policy `{"resources": {"a": {"allow": ["x"]}}}` from the spec's
section-shape test. -/
def c6PolicyAllow : PyVal :=
  .pydict [(.pystr "resources",
            .pydict [(.pystr "a",
                      .pydict [(.pystr "allow",
                                .pylist [.pystr "x"])])])]

/-- The policy `{"resources": {"a": {}}}` from the spec's section-shape
test. -/
def c6PolicyEmptySection : PyVal :=
  .pydict [(.pystr "resources", .pydict [(.pystr "a", .pydict [])])]

/-- A registry with one choice `mychoice` having one operator `is`, used
by the C1 counterexample. -/
def c1Choice : ConditionChoice :=
  { choice_id := some "mychoice",
    name := some "My Choice",
    default_value_field := .absent,
    operators :=
      [{ operator_id := some "is",
         name := some "Is",
         has_custom_value_field := false,
         value_field := .absent }] }

/-- The widget of the C1 counterexample: registry `[c1Choice]`, no
per-row errors, no base attributes. -/
def c1Widget : ConditionsWidget :=
  { choices := { origChoices := .inst [c1Choice], cachedChoices := none },
    choiceKwargs := [],
    conditionErrors := [],
    attrs := { id := none, disabled := false } }

/-- The context rendered for one row whose choice `mychoice` resolves but
whose operator `ghost-op` does not. -/
def c1Context : ConditionsContext :=
  getContext c1Widget "conds"
    { mode := some "all",
      conditions := [{ choice := "mychoice", op := "ghost-op",
                       value := none }] }
    none

/-- The `disabled` attribute of the choice dropdown rendered for the C1
counterexample row. -/
def c1ChoiceSelectDisabled : Bool :=
  match c1Context.rendered_rows with
  | [rr] =>
    match rr.choice with
    | .select _ _ a _ :: _ => a.disabled
    | _ => false
  | _ => false

/-! ## Helper lemmas -/

theorem pydictHasKey_of_get {entries : List (PyVal × PyVal)} {k : String}
    {v : PyVal} (h : pydictGet entries k = some v) :
    pydictHasKey entries k = true := by
  unfold pydictGet at h
  unfold pydictHasKey
  cases hf : entries.find? (fun e => pyKeyEqStr e.1 k) with
  | none => rw [hf] at h; simp at h
  | some e =>
    exact List.any_eq_true.mpr
      ⟨e, List.mem_of_find?_eq_some hf,
       List.find?_some (p := fun (e : PyVal × PyVal) => pyKeyEqStr e.1 k)
         hf⟩

theorem mem_setAdd (s : List String) (x y : String) :
    y ∈ setAdd s x ↔ y ∈ s ∨ y = x := by
  unfold setAdd
  by_cases h : x ∈ s
  · simp only [if_pos h]
    constructor
    · exact Or.inl
    · rintro (hy | rfl)
      · exact hy
      · exact h
  · simp [if_neg h]

mutual

theorem mem_getValidPolicyIds (r : Resource) (acc : List String)
    (x : String) :
    x ∈ getValidPolicyIds r acc ↔ x ∈ acc ∨ x ∈ resourcePolicyIds r := by
  cases r with
  | mk pid lcs ics =>
    cases pid with
    | some s =>
      simp only [getValidPolicyIds, resourcePolicyIds]
      rw [mem_getValidPolicyIdsList ics, mem_getValidPolicyIdsList lcs]
      simp [mem_setAdd]
      tauto
    | none =>
      simp only [getValidPolicyIds, resourcePolicyIds]
      rw [mem_getValidPolicyIdsList ics, mem_getValidPolicyIdsList lcs]
      simp
      tauto

theorem mem_getValidPolicyIdsList (rs : List Resource) (acc : List String)
    (x : String) :
    x ∈ getValidPolicyIdsList rs acc ↔
      x ∈ acc ∨ x ∈ resourcePolicyIdsList rs := by
  cases rs with
  | nil => simp [getValidPolicyIdsList, resourcePolicyIdsList]
  | cons c rest =>
    simp only [getValidPolicyIdsList, resourcePolicyIdsList]
    rw [mem_getValidPolicyIdsList rest, mem_getValidPolicyIds c]
    simp; tauto

end

theorem validatePolicySection_congr {p1 p2 : List (PyVal × PyVal)}
    {n : String} (h : pydictGet p1 n = pydictGet p2 n) (f : String) :
    validatePolicySection p1 n f = validatePolicySection p2 n f := by
  unfold validatePolicySection
  rw [h]

theorem validatePolicySection_ne_notImplemented
    (p : List (PyVal × PyVal)) (n f : String) :
    validatePolicySection p n f ≠ .notImplementedError := by
  unfold validatePolicySection
  split
  · exact fun h => nomatch h
  · split
    · split
      · exact fun h => nomatch h
      · split
        · exact fun h => nomatch h
        · split
          · exact fun h => nomatch h
          · exact fun h => nomatch h
    · exact fun h => nomatch h

theorem pydictGet_append_left_none {pre : List (PyVal × PyVal)}
    {k : String} (h : pydictHasKey pre k = false)
    (post : List (PyVal × PyVal)) :
    pydictGet (pre ++ post) k = pydictGet post k := by
  unfold pydictGet
  rw [List.find?_append]
  have hn : pre.find? (fun e => pyKeyEqStr e.1 k) = none := by
    rw [List.find?_eq_none]
    intro e he
    have := List.any_eq_false.mp h e he
    simpa using this
  rw [hn]
  rfl

theorem processResourcePolicies_append_ok {ids : List String}
    {pre : List (PyVal × PyVal)}
    (h : ∀ e ∈ pre, processOnePolicy ids e.1 e.2 = .ok)
    (rest : List (PyVal × PyVal)) :
    processResourcePolicies ids (pre ++ rest) =
      processResourcePolicies ids rest := by
  induction pre with
  | nil => rfl
  | cons e pre ih =>
    have he : processOnePolicy ids e.1 e.2 = .ok :=
      h e (List.mem_cons_self e pre)
    calc processResourcePolicies ids ((e :: pre) ++ rest)
        = processResourcePolicies ids (pre ++ rest) := by
          simp only [List.cons_append, processResourcePolicies, he,
            List.append_eq]
      _ = processResourcePolicies ids rest :=
          ih (fun e' he' => h e' (List.mem_cons_of_mem e he'))

/-- Decomposition of `validatePolicy` on a policy
`{"resources": <non-empty dict rs>}`: the wildcard check runs first, the
named-section loop (the only consumer of the resource tree) second. -/
theorem validatePolicy_resources_dict (root : Option Resource)
    (rs : List (PyVal × PyVal)) (hne : rs ≠ []) :
    validatePolicy root (.pydict [(.pystr "resources", .pydict rs)]) =
      (match (if pydictHasKey rs "*" then
                validatePolicySection rs "*" "resources.*"
              else .ok) with
       | .ok =>
         (if (rs.filter (fun e => !pyKeyEqStr e.1 "*")).isEmpty then
            .ok
          else
            match root with
            | none => .notImplementedError
            | some r =>
              processResourcePolicies (getValidPolicyIds r [])
                (rs.filter (fun e => !pyKeyEqStr e.1 "*")))
       | e => e) := by
  have h3 : rs.isEmpty = false := by
    cases rs with
    | nil => exact absurd rfl hne
    | cons a l => rfl
  have h1 : ([(PyVal.pystr "resources", PyVal.pydict rs)] :
      List (PyVal × PyVal)).isEmpty = false := rfl
  have h2 : pydictHasKey [(PyVal.pystr "resources", PyVal.pydict rs)]
      "resources" = true := rfl
  have h4 : pydictGet [(PyVal.pystr "resources", PyVal.pydict rs)]
      "resources" = some (PyVal.pydict rs) := rfl
  simp only [validatePolicy, h1, h2, h3, h4, Bool.not_true,
    Bool.false_eq_true, if_false]

/-! ## Claim theorems: policy validator -/

/-- C7: `validate_policy` accepts the empty mapping `{}`: a policy that
is a mapping with no keys validates successfully (full access) and the
call returns without examining anything else — in particular without a
resource tree (`rootResource` is arbitrary, including `none`, the
abstract base class whose `get_root_resource` raises). -/
theorem validatePolicy_empty_policy_ok (root : Option Resource) :
    validatePolicy root (.pydict []) = .ok := rfl

/-- C8: for every non-empty policy mapping, `validate_policy` fails with
a `ValidationError` unless the `resources` key exists and its value is a
non-empty mapping: a missing key, a non-mapping value, and an empty
mapping each fail (with the corresponding message). -/
theorem validatePolicy_requires_resources (root : Option Resource)
    (entries : List (PyVal × PyVal)) (hne : entries ≠ []) :
    (pydictHasKey entries "resources" = false →
       validatePolicy root (.pydict entries) =
         .validationError msgMissingResources)
    ∧ (∀ v, pydictGet entries "resources" = some v →
         (∀ sub, v ≠ PyVal.pydict sub) →
         validatePolicy root (.pydict entries) =
           .validationError msgResourcesNotObject)
    ∧ (pydictGet entries "resources" = some (.pydict []) →
         validatePolicy root (.pydict entries) =
           .validationError msgResourcesEmpty) := by
  have hempty : entries.isEmpty = false := by
    cases entries with
    | nil => exact absurd rfl hne
    | cons a l => rfl
  refine ⟨?_, ?_, ?_⟩
  · intro hk
    simp [validatePolicy, hempty, hk]
  · intro v hget hv
    have hk := pydictHasKey_of_get hget
    simp only [validatePolicy, hempty, hk, hget, Bool.not_true,
      Bool.false_eq_true, if_false]
  · intro hget
    have hk := pydictHasKey_of_get hget
    simp [validatePolicy, hempty, hk, hget]

/-- Witness for C8 at a concrete input: the non-empty policy
`{"note": "hi"}` has no `resources` key and is rejected with the
missing-resources message. -/
theorem validatePolicy_requires_resources_witness :
    ([(PyVal.pystr "note", PyVal.pystr "hi")] ≠
        ([] : List (PyVal × PyVal)))
    ∧ validatePolicy none (.pydict [(.pystr "note", .pystr "hi")]) =
        .validationError msgMissingResources :=
  ⟨List.cons_ne_nil _ _,
   (validatePolicy_requires_resources none _ (List.cons_ne_nil _ _)).1
     (by decide)⟩

/-- C3: `_get_valid_policy_ids` computes the valid policy-identifier set
by a depth-first walk of the resource tree: membership in its result is
membership in the accumulator or in the spec-side collection
(`resourcePolicyIds`: the node's own `policy_id`, when the attribute is
present, unioned with the ids of its list children and item children);
on the spec's example tree `A -> [B, C]` (list children) with
`A.policy_id="root"`, `B.policy_id="b"`, `C` without the attribute, the
result is exactly the set containing "root" and "b". -/
theorem getValidPolicyIds_dfs_spec :
    (∀ (r : Resource) (acc : List String) (x : String),
       x ∈ getValidPolicyIds r acc ↔ x ∈ acc ∨ x ∈ resourcePolicyIds r)
    ∧ (∀ x : String,
       x ∈ getValidPolicyIds exampleResourceA [] ↔
         x = "root" ∨ x = "b") := by
  refine ⟨mem_getValidPolicyIds, ?_⟩
  intro x
  have h : getValidPolicyIds exampleResourceA [] = ["root", "b"] := by
    decide
  rw [h]
  simp

/-- C10: `validate_policy` consults the resource tree only when needed:
when every key of the resources section is the wildcard `*`, the result
does not depend on the supplied root resource at all (so
`get_root_resource` / `_get_valid_policy_ids` are never consulted), the
`NotImplementedError` of the abstract base class is unreachable, and a
wildcard-only policy with a well-formed wildcard section validates
successfully. -/
theorem validatePolicy_wildcard_only_skips_tree (root : Option Resource)
    (rs : List (PyVal × PyVal))
    (hall : ∀ e ∈ rs, e.1 = PyVal.pystr "*") :
    (validatePolicy root (.pydict [(.pystr "resources", .pydict rs)]) =
       validatePolicy none (.pydict [(.pystr "resources", .pydict rs)]))
    ∧ validatePolicy root (.pydict [(.pystr "resources", .pydict rs)]) ≠
        .notImplementedError
    ∧ (rs ≠ [] →
       validatePolicySection rs "*" "resources.*" = .ok →
       validatePolicy root (.pydict [(.pystr "resources", .pydict rs)]) =
         .ok) := by
  have hfilter : rs.filter (fun e => !pyKeyEqStr e.1 "*") = [] := by
    rw [List.filter_eq_nil_iff]
    intro e he
    rw [hall e he]
    simp [pyKeyEqStr]
  cases hrs : rs with
  | nil =>
    refine ⟨rfl, ?_, fun hne _ => absurd rfl hne⟩
    have hv : validatePolicy root
        (.pydict [(.pystr "resources", .pydict [])]) =
          .validationError msgResourcesEmpty := rfl
    rw [hv]
    exact fun h => nomatch h
  | cons a l =>
    rw [← hrs]
    have hne : rs ≠ [] := by rw [hrs]; exact List.cons_ne_nil _ _
    rw [validatePolicy_resources_dict root rs hne,
        validatePolicy_resources_dict none rs hne, hfilter]
    refine ⟨rfl, ?_, ?_⟩
    · cases hwk : pydictHasKey rs "*" with
      | false => simp
      | true =>
        simp only [if_pos rfl]
        cases hsec : validatePolicySection rs "*" "resources.*" with
        | ok => simp
        | validationError m => simp
        | notImplementedError =>
          exact absurd hsec (validatePolicySection_ne_notImplemented rs _ _)
        | pyError m => simp
    · intro _ hok
      cases hwk : pydictHasKey rs "*" with
      | false => simp
      | true => simp [hok]

/-- Witness for C10 at a concrete input: the wildcard-only policy
`{"resources": {"*": {"allow": ["x"]}}}` validates successfully on the
abstract base class (`rootResource = none`), whose `get_root_resource`
would raise. -/
theorem validatePolicy_wildcard_only_skips_tree_witness :
    validatePolicySection
        [(PyVal.pystr "*",
          PyVal.pydict [(PyVal.pystr "allow", PyVal.pylist [PyVal.pystr "x"])])]
        "*" "resources.*" = .ok
    ∧ validatePolicy none
        (.pydict [(.pystr "resources",
                   .pydict [(.pystr "*",
                             .pydict [(.pystr "allow",
                                       .pylist [.pystr "x"])])])]) = .ok :=
  ⟨by decide,
   (validatePolicy_wildcard_only_skips_tree none _
       (fun e he => by rw [List.mem_singleton] at he; rw [he])).2.2
     (List.cons_ne_nil _ _) (by decide)⟩

/-- C2: in `validate_policy`, the wildcard section `*` is validated
before any named section regardless of its position in the mapping and is
exempt from the valid-identifier membership check; every non-wildcard key
must be a member of the valid policy-id set, and the first unknown key
encountered (all earlier named sections having validated) fails the whole
call immediately with a `ValidationError` naming that identifier. -/
theorem validatePolicy_wildcard_first_and_membership :
    (∀ (root : Option Resource) (pre post : List (PyVal × PyVal))
       (w : PyVal) (m : String),
       pydictHasKey pre "*" = false →
       validatePolicySection [(.pystr "*", w)] "*" "resources.*" =
         .validationError m →
       validatePolicy root
         (.pydict [(.pystr "resources",
                    .pydict (pre ++ (.pystr "*", w) :: post))]) =
         .validationError m)
    ∧ (∀ (root : Resource) (rs pre post : List (PyVal × PyVal))
         (k : String) (sec : PyVal),
       (pydictHasKey rs "*" = true →
          validatePolicySection rs "*" "resources.*" = .ok) →
       rs.filter (fun e => !pyKeyEqStr e.1 "*") =
         pre ++ (.pystr k, sec) :: post →
       (∀ e ∈ pre,
          processOnePolicy (getValidPolicyIds root []) e.1 e.2 = .ok) →
       k ∉ getValidPolicyIds root [] →
       validatePolicy (some root)
         (.pydict [(.pystr "resources", .pydict rs)]) =
         .validationError (msgInvalidPolicyId k))
    ∧ (∀ (root : Resource) (rs : List (PyVal × PyVal)),
       pydictHasKey rs "*" = true →
       validatePolicySection rs "*" "resources.*" = .ok →
       (∀ e ∈ rs.filter (fun e => !pyKeyEqStr e.1 "*"),
          processOnePolicy (getValidPolicyIds root []) e.1 e.2 = .ok) →
       validatePolicy (some root)
         (.pydict [(.pystr "resources", .pydict rs)]) = .ok) := by
  refine ⟨?_, ?_, ?_⟩
  · intro root pre post w m hpw hcheck
    have hget : pydictGet (pre ++ (PyVal.pystr "*", w) :: post) "*" =
        some w := by
      rw [pydictGet_append_left_none hpw]
      rfl
    have hsec : validatePolicySection
        (pre ++ (PyVal.pystr "*", w) :: post) "*" "resources.*" =
        .validationError m := by
      rw [validatePolicySection_congr
            (show pydictGet (pre ++ (PyVal.pystr "*", w) :: post) "*" =
                pydictGet [(PyVal.pystr "*", w)] "*" by rw [hget]; rfl)]
      exact hcheck
    have hk := pydictHasKey_of_get hget
    have hne : (pre ++ (PyVal.pystr "*", w) :: post) ≠ [] := by simp
    rw [validatePolicy_resources_dict root _ hne]
    simp [hk, hsec]
  · intro root rs pre post k sec hwc hsplit hpre hk
    have hne : rs ≠ [] := by
      intro h
      subst h
      simp at hsplit
    rw [validatePolicy_resources_dict (some root) rs hne]
    have hwc2 : (if pydictHasKey rs "*" = true then
        validatePolicySection rs "*" "resources.*" else .ok) = .ok := by
      cases h : pydictHasKey rs "*" with
      | true => simpa using hwc h
      | false => rfl
    rw [hwc2, hsplit]
    have hfe : (pre ++ (PyVal.pystr k, sec) :: post).isEmpty = false := by
      cases pre <;> rfl
    simp only [hfe, Bool.false_eq_true, if_false]
    rw [processResourcePolicies_append_ok hpre]
    simp [processResourcePolicies, processOnePolicy, hk, pyvalStr]
  · intro root rs hwk hwc hall
    have hne : rs ≠ [] := by
      intro h
      subst h
      simp [pydictHasKey] at hwk
    rw [validatePolicy_resources_dict (some root) rs hne]
    have hproc : processResourcePolicies (getValidPolicyIds root [])
        (rs.filter (fun e => !pyKeyEqStr e.1 "*")) = .ok := by
      have h2 := processResourcePolicies_append_ok hall
        ([] : List (PyVal × PyVal))
      rwa [List.append_nil] at h2
    simp [hwk, hwc, hproc]

/-- Witness for C2 at the spec's concrete input: the policy
`{"resources": {"*": {"allow": ["x"]}, "bogus": {"allow": ["y"]}}}`,
validated against a tree exposing only the id `root`, fails naming
`bogus` even though the wildcard section is present and valid. -/
theorem validatePolicy_wildcard_first_and_membership_witness :
    ("bogus" ∉ getValidPolicyIds (Resource.mk (some "root") [] []) [])
    ∧ validatePolicy (some (Resource.mk (some "root") [] []))
        (.pydict [(.pystr "resources",
                   .pydict [(.pystr "*",
                             .pydict [(.pystr "allow",
                                       .pylist [.pystr "x"])]),
                            (.pystr "bogus",
                             .pydict [(.pystr "allow",
                                       .pylist [.pystr "y"])])])]) =
        .validationError (msgInvalidPolicyId "bogus") :=
  ⟨by decide,
   validatePolicy_wildcard_first_and_membership.2.1
     (Resource.mk (some "root") [] []) _ [] [] "bogus" _
     (fun _ => by decide) rfl (fun e he => nomatch he) (by decide)⟩

/-- Characterization of `_validate_policy_section` by the spec's
section-shape predicate: when the looked-up section is `w`, the check
passes exactly when `w` is a mapping with at least one of
`allow`/`block`, each a list when present. -/
theorem validatePolicySection_ok_iff (parent : List (PyVal × PyVal))
    (n full : String) (w : PyVal) (hget : pydictGet parent n = some w) :
    validatePolicySection parent n full = .ok ↔
      sectionShapeOk w = true := by
  unfold validatePolicySection
  rw [hget]
  cases w with
  | pydict s =>
    simp only [sectionShapeOk]
    cases ha : pydictHasKey s "allow" <;>
      cases hb : pydictHasKey s "block" <;>
      cases hla : (match pydictGet s "allow" with
                   | some x => isPyList x
                   | none => false) <;>
      cases hlb : (match pydictGet s "block" with
                   | some x => isPyList x
                   | none => false) <;>
      simp [ha, hb, hla, hlb]
  | pystr s => simp [sectionShapeOk]
  | pyint n => simp [sectionShapeOk]
  | pybool b => simp [sectionShapeOk]
  | pynone => simp [sectionShapeOk]
  | pylist xs => simp [sectionShapeOk]
  | pyother t => simp [sectionShapeOk]

/-- Counterexample for C6: the allow/block shape requirement is *not*
applied to named sections themselves.  With the id `a` valid,
`{"resources": {"a": {}}}` (neither `allow` nor `block`) validates
successfully, although the claim says every section must contain one of
them; and `{"resources": {"a": {"allow": ["x"]}}}` — which the claim says
succeeds — is rejected, because the value under a named section is
treated as a mapping of subsections and `"allow": ["x"]` is validated as
a subsection that must itself be a JSON object. -/
theorem validatePolicy_named_section_shape_counterexample :
    validatePolicy (some c6Resource) c6PolicyEmptySection = .ok
    ∧ validatePolicy (some c6Resource) c6PolicyAllow =
        .validationError (msgSectionNotObject "resources.a.allow") :=
  ⟨by decide, by decide⟩

/-- C6 (amended): the allow/block shape requirement applies to the
wildcard section and to every *subsection* of a named section: the
looked-up wildcard section must satisfy the shape predicate; a named
section (whose id is valid) is a mapping of subsections, each keyed by a
string (a non-string key fails with the must-be-a-string error) and each
required to satisfy the shape predicate; a named section with no
subsections passes. -/
theorem validatePolicy_section_shape_amended :
    (∀ (parent : List (PyVal × PyVal)) (n full : String) (w : PyVal),
       pydictGet parent n = some w →
       (validatePolicySection parent n full = .ok ↔
          sectionShapeOk w = true))
    ∧ (∀ (ids : List String) (k : String), k ∈ ids →
       processOnePolicy ids (.pystr k) (.pydict []) = .ok)
    ∧ (∀ (ids : List String) (k n : String) (sub : PyVal), k ∈ ids →
       (processOnePolicy ids (.pystr k) (.pydict [(.pystr n, sub)]) =
          .ok ↔ sectionShapeOk sub = true))
    ∧ (∀ (ids : List String) (k : String) (nk : PyVal) (v : PyVal),
       k ∈ ids → (∀ s, nk ≠ PyVal.pystr s) →
       processOnePolicy ids (.pystr k) (.pydict [(nk, v)]) =
         .validationError (msgSubsectionNotString (pyvalStr nk) k)) := by
  refine ⟨validatePolicySection_ok_iff, ?_, ?_, ?_⟩
  · intro ids k hk
    simp [processOnePolicy, hk, validateSubsections]
  · intro ids k n sub hk
    have h1 : pydictGet [(PyVal.pystr n, sub)] n = some sub := by
      unfold pydictGet
      rw [List.find?_cons_of_pos]
      · rfl
      · simp [pyKeyEqStr]
    simp only [processOnePolicy, hk, List.elem_eq_mem, decide_eq_true_eq,
      if_true, Bool.not_true, Bool.false_eq_true, if_false,
      validateSubsections]
    cases hv : validatePolicySection [(PyVal.pystr n, sub)] n
        ("resources." ++ k ++ "." ++ n) with
    | ok =>
      simp only [validateSubsections]
      rw [← validatePolicySection_ok_iff _ n ("resources." ++ k ++ "." ++ n)
            sub h1]
      simp [hv, hk]
    | validationError m =>
      rw [← validatePolicySection_ok_iff _ n ("resources." ++ k ++ "." ++ n)
            sub h1]
      simp [hv, hk]
    | notImplementedError =>
      exact absurd hv (validatePolicySection_ne_notImplemented _ _ _)
    | pyError m =>
      rw [← validatePolicySection_ok_iff _ n ("resources." ++ k ++ "." ++ n)
            sub h1]
      simp [hv, hk]
  · intro ids k nk v hk hnk
    simp only [processOnePolicy, hk, List.elem_eq_mem, decide_eq_true_eq,
      if_true, Bool.not_true, Bool.false_eq_true, if_false,
      validateSubsections]
    cases nk with
    | pystr s => exact absurd rfl (hnk s)
    | pyint n => simp [hk]
    | pybool b => simp [hk]
    | pynone => simp [hk]
    | pylist xs => simp [hk]
    | pydict es => simp [hk]
    | pyother t => simp [hk]

/-- Witness for the amended C6 at a concrete input: with `a` a valid id,
the empty named section `{}` passes. -/
theorem validatePolicy_section_shape_amended_witness :
    ("a" ∈ (["a"] : List String))
    ∧ processOnePolicy ["a"] (.pystr "a") (.pydict []) = .ok :=
  ⟨by decide,
   validatePolicy_section_shape_amended.2.1 ["a"] "a" (by decide)⟩

/-! ## Helper lemmas: conditions widget -/

theorem processCondition_unresolved (w : ConditionsWidget)
    (choices : List ConditionChoice) (attrs : WidgetAttrs)
    (wid : Option String) (name : String) (i : Nat)
    (cond : ConditionData)
    (h : getChoice choices cond.choice w.choiceKwargs = none ∨
         ∃ ch, getChoice choices cond.choice w.choiceKwargs = some ch ∧
               ch.get_operator cond.op = none) :
    (processCondition w choices attrs wid name i cond).2.1.choiceID =
        cond.choice
    ∧ (processCondition w choices attrs wid name i cond).2.1.operatorID =
        cond.op
    ∧ (processCondition w choices attrs wid name i cond).2.1.value =
        cond.value
    ∧ (processCondition w choices attrs wid name i cond).2.1.valid =
        false
    ∧ (∃ msg, (msg = msgChoiceGone ∨ msg = msgOperatorGone)
        ∧ (processCondition w choices attrs wid name i cond).2.1.error =
            some msg
        ∧ (processCondition w choices attrs wid name i cond).1.error =
            some msg)
    ∧ RenderElem.hiddenInput (name ++ "_choice[" ++ toString i ++ "]")
        cond.choice ∈
        (processCondition w choices attrs wid name i cond).1.choice
    ∧ RenderElem.hiddenInput (name ++ "_operator[" ++ toString i ++ "]")
        cond.op ∈
        (processCondition w choices attrs wid name i cond).1.operator
    ∧ (∀ nm v a items, RenderElem.select nm v a items ∈
         (processCondition w choices attrs wid name i cond).1.choice →
         a.disabled = true)
    ∧ (∀ nm v a items, RenderElem.select nm v a items ∈
         (processCondition w choices attrs wid name i cond).1.operator →
         a.disabled = true) := by
  rcases h with h | ⟨ch, hc, hop⟩
  · cases wid <;>
      simp [processCondition, h, msgChoiceGone] <;>
      exact ⟨fun nm v a items _ _ ha _ => by rw [ha],
             fun nm v a items _ _ ha _ => by rw [ha]⟩
  · cases wid <;>
      simp [processCondition, hc, hop, msgOperatorGone] <;>
      exact ⟨fun nm v a items _ _ ha _ => by rw [ha],
             fun nm v a items _ _ ha _ => by rw [ha]⟩

theorem processCondition_operator_missing (w : ConditionsWidget)
    (choices : List ConditionChoice) (attrs : WidgetAttrs)
    (wid : Option String) (name : String) (i : Nat)
    (cond : ConditionData) (ch : ConditionChoice)
    (hc : getChoice choices cond.choice w.choiceKwargs = some ch)
    (hop : ch.get_operator cond.op = none) :
    ∃ ca oa,
      (processCondition w choices attrs wid name i cond).1.choice =
        [.select (name ++ "_choice[" ++ toString i ++ "]") cond.choice
           ca [],
         .hiddenInput (name ++ "_choice[" ++ toString i ++ "]")
           cond.choice]
      ∧ ca.disabled = true
      ∧ (processCondition w choices attrs wid name i cond).1.operator =
          [.select (name ++ "_operator[" ++ toString i ++ "]") cond.op
             oa [(cond.op, cond.op)],
           .hiddenInput (name ++ "_operator[" ++ toString i ++ "]")
             cond.op]
      ∧ oa.disabled = true
      ∧ (processCondition w choices attrs wid name i cond).1.error =
          some msgOperatorGone
      ∧ (processCondition w choices attrs wid name i cond).2.1 =
          { choiceID := cond.choice, operatorID := cond.op,
            value := cond.value, valid := false,
            error := some msgOperatorGone } := by
  cases wid with
  | none =>
    refine ⟨{ id := attrs.id, disabled := true },
            { id := attrs.id, disabled := true }, ?_⟩
    simp [processCondition, hc, hop, msgOperatorGone]
  | some s =>
    refine ⟨{ id := some (s ++ "_choice_" ++ toString i),
              disabled := true },
            { id := some (s ++ "_operator_" ++ toString i),
              disabled := true }, ?_⟩
    simp [processCondition, hc, hop, msgOperatorGone]

theorem processConditions_length (w : ConditionsWidget)
    (choices : List ConditionChoice) (wid : Option String)
    (name : String) (conds : List ConditionData) :
    ∀ (attrs : WidgetAttrs) (i : Nat),
      (processConditions w choices attrs wid name i conds).1.length =
        conds.length
      ∧ (processConditions w choices attrs wid name i conds).2.1.length =
          conds.length := by
  induction conds with
  | nil => intro attrs i; exact ⟨rfl, rfl⟩
  | cons c rest ih =>
    intro attrs i
    simp only [processConditions, List.length_cons]
    exact ⟨by rw [(ih _ _).1], by rw [(ih _ _).2]⟩

theorem processConditions_getElem (w : ConditionsWidget)
    (choices : List ConditionChoice) (wid : Option String)
    (name : String) (conds : List ConditionData) :
    ∀ (attrs : WidgetAttrs) (i j : Nat) (h : j < conds.length),
      ∃ attrs2,
        (processConditions w choices attrs wid name i conds).1[j]? =
          some (processCondition w choices attrs2 wid name (i + j)
                  (conds.get ⟨j, h⟩)).1
        ∧ (processConditions w choices attrs wid name i conds).2.1[j]? =
            some (processCondition w choices attrs2 wid name (i + j)
                    (conds.get ⟨j, h⟩)).2.1 := by
  induction conds with
  | nil => intro attrs i j h; exact absurd h (by simp)
  | cons c rest ih =>
    intro attrs i j h
    cases j with
    | zero =>
      refine ⟨attrs, ?_, ?_⟩ <;> simp [processConditions]
    | succ j =>
      have hj : j < rest.length := by simpa using h
      obtain ⟨attrs2, h1, h2⟩ :=
        ih (processCondition w choices attrs wid name i c).2.2 (i + 1) j hj
      have harith : i + 1 + j = i + (j + 1) := by omega
      rw [harith] at h1 h2
      refine ⟨attrs2, ?_, ?_⟩ <;>
        simp only [processConditions, List.getElem?_cons_succ,
          List.get_cons_succ] <;> assumption

/-! ## Claim theorems: conditions widget and field -/

/-- C4: every row of `get_context` whose choice or operator identifier
fails to resolve is still emitted (the output has one serialized row per
input condition), with its raw identifiers and value preserved verbatim,
`valid = False`, one of the two explanatory messages attached to both
the serialized row and the rendered row, every rendered dropdown of the
row disabled, and hidden inputs retaining both identifiers. -/
theorem getContext_preserves_unresolved_rows (w : ConditionsWidget)
    (name : String) (value : ConditionSetData)
    (attrs : Option WidgetAttrs) (j : Nat)
    (h : j < value.conditions.length)
    (hun : getChoice (choicesGet w.choices).1
             (value.conditions.get ⟨j, h⟩).choice w.choiceKwargs = none
           ∨ ∃ ch, getChoice (choicesGet w.choices).1
                     (value.conditions.get ⟨j, h⟩).choice
                     w.choiceKwargs = some ch
               ∧ ch.get_operator (value.conditions.get ⟨j, h⟩).op =
                   none) :
    (getContext w name value attrs).serialized_rows.length =
      value.conditions.length
    ∧ ∃ rd rr,
        (getContext w name value attrs).serialized_rows[j]? = some rd
        ∧ (getContext w name value attrs).rendered_rows[j]? = some rr
        ∧ rd.choiceID = (value.conditions.get ⟨j, h⟩).choice
        ∧ rd.operatorID = (value.conditions.get ⟨j, h⟩).op
        ∧ rd.value = (value.conditions.get ⟨j, h⟩).value
        ∧ rd.valid = false
        ∧ (∃ msg, (msg = msgChoiceGone ∨ msg = msgOperatorGone)
            ∧ rd.error = some msg ∧ rr.error = some msg)
        ∧ RenderElem.hiddenInput
            (name ++ "_choice[" ++ toString j ++ "]")
            (value.conditions.get ⟨j, h⟩).choice ∈ rr.choice
        ∧ RenderElem.hiddenInput
            (name ++ "_operator[" ++ toString j ++ "]")
            (value.conditions.get ⟨j, h⟩).op ∈ rr.operator
        ∧ (∀ nm v a items,
             RenderElem.select nm v a items ∈ rr.choice →
             a.disabled = true)
        ∧ (∀ nm v a items,
             RenderElem.select nm v a items ∈ rr.operator →
             a.disabled = true) := by
  obtain ⟨attrs2, h1, h2⟩ :=
    processConditions_getElem w (choicesGet w.choices).1
      (buildAttrs w.attrs attrs).id name value.conditions
      (buildAttrs w.attrs attrs) 0 j h
  rw [Nat.zero_add] at h1 h2
  obtain ⟨p1, p2, p3, p4, p5, p6, p7, p8, p9⟩ :=
    processCondition_unresolved w (choicesGet w.choices).1 attrs2
      (buildAttrs w.attrs attrs).id name j (value.conditions.get ⟨j, h⟩)
      hun
  refine ⟨?_, _, _, h2, h1, p1, p2, p3, p4, p5, p6, p7, p8, p9⟩
  exact (processConditions_length w (choicesGet w.choices).1
    (buildAttrs w.attrs attrs).id name value.conditions
    (buildAttrs w.attrs attrs) 0).2

/-- Witness for C4 at a concrete input: a row referencing the deleted
choice id `ghost` is still emitted as the single serialized row. -/
theorem getContext_preserves_unresolved_rows_witness :
    getChoice (choicesGet c1Widget.choices).1 "ghost"
        c1Widget.choiceKwargs = none
    ∧ (getContext c1Widget "conds"
         { mode := some "all",
           conditions := [{ choice := "ghost", op := "is",
                            value := none }] }
         none).serialized_rows.length = 1 :=
  ⟨rfl,
   (getContext_preserves_unresolved_rows c1Widget "conds"
      { mode := some "all",
        conditions := [{ choice := "ghost", op := "is", value := none }] }
      none 0 (by decide) (Or.inl rfl)).1⟩

/-- Counterexample for C1: the claim says the choice dropdown "stays
editable" when the choice resolves but the operator does not; in the
code, `widget_attrs` is rebound with `disabled='disabled'` for any
invalid row *before* either dropdown is rendered, so the choice dropdown
of such a row is rendered disabled too. -/
theorem getContext_choice_dropdown_disabled_counterexample :
    c1ChoiceSelectDisabled = true ∧ ¬ c1ChoiceSelectDisabled = false :=
  ⟨by decide, by decide⟩

/-- C1 (amended): for a row whose choice identifier resolves but whose
operator identifier does not, the choice dropdown rebuilds its live
option list (no raw fallback option is appended) but is rendered
disabled, like the rest of the row; the operator column is rendered as a
single disabled option showing the raw stored operator identifier;
hidden inputs retain both identifiers, and the serialized row carries
`valid = False` with the operator-no-longer-exists message. -/
theorem getContext_operator_missing_amended (w : ConditionsWidget)
    (name : String) (value : ConditionSetData)
    (attrs : Option WidgetAttrs) (j : Nat)
    (h : j < value.conditions.length) (ch : ConditionChoice)
    (hc : getChoice (choicesGet w.choices).1
            (value.conditions.get ⟨j, h⟩).choice w.choiceKwargs =
            some ch)
    (hop : ch.get_operator (value.conditions.get ⟨j, h⟩).op = none) :
    ∃ rr rd ca oa,
      (getContext w name value attrs).rendered_rows[j]? = some rr
      ∧ (getContext w name value attrs).serialized_rows[j]? = some rd
      ∧ rr.choice =
          [.select (name ++ "_choice[" ++ toString j ++ "]")
             (value.conditions.get ⟨j, h⟩).choice ca [],
           .hiddenInput (name ++ "_choice[" ++ toString j ++ "]")
             (value.conditions.get ⟨j, h⟩).choice]
      ∧ ca.disabled = true
      ∧ rr.operator =
          [.select (name ++ "_operator[" ++ toString j ++ "]")
             (value.conditions.get ⟨j, h⟩).op oa
             [((value.conditions.get ⟨j, h⟩).op,
               (value.conditions.get ⟨j, h⟩).op)],
           .hiddenInput (name ++ "_operator[" ++ toString j ++ "]")
             (value.conditions.get ⟨j, h⟩).op]
      ∧ oa.disabled = true
      ∧ rr.error = some msgOperatorGone
      ∧ rd = { choiceID := (value.conditions.get ⟨j, h⟩).choice,
               operatorID := (value.conditions.get ⟨j, h⟩).op,
               value := (value.conditions.get ⟨j, h⟩).value,
               valid := false,
               error := some msgOperatorGone } := by
  obtain ⟨attrs2, h1, h2⟩ :=
    processConditions_getElem w (choicesGet w.choices).1
      (buildAttrs w.attrs attrs).id name value.conditions
      (buildAttrs w.attrs attrs) 0 j h
  rw [Nat.zero_add] at h1 h2
  obtain ⟨ca, oa, q1, q2, q3, q4, q5, q6⟩ :=
    processCondition_operator_missing w (choicesGet w.choices).1 attrs2
      (buildAttrs w.attrs attrs).id name j (value.conditions.get ⟨j, h⟩)
      ch hc hop
  exact ⟨_, _, ca, oa, h1, h2, q1, q2, q3, q4, q5, q6⟩

/-- Witness for the amended C1 at a concrete input: the row
`(mychoice, ghost-op)` against a registry holding `mychoice` (whose only
operator is `is`) renders with the operator-no-longer-exists message. -/
theorem getContext_operator_missing_amended_witness :
    getChoice (choicesGet c1Widget.choices).1 "mychoice"
        c1Widget.choiceKwargs = some c1Choice
    ∧ ∃ rr, (getContext c1Widget "conds"
               { mode := some "all",
                 conditions := [{ choice := "mychoice", op := "ghost-op",
                                  value := none }] }
               none).rendered_rows[0]? = some rr
        ∧ rr.error = some msgOperatorGone := by
  refine ⟨rfl, ?_⟩
  obtain ⟨rr, rd, ca, oa, h1, _, _, _, _, _, herr, _⟩ :=
    getContext_operator_missing_amended c1Widget "conds"
      { mode := some "all",
        conditions := [{ choice := "mychoice", op := "ghost-op",
                         value := none }] }
      none 0 (by decide) c1Choice rfl rfl
  exact ⟨rr, h1, herr⟩

theorem choicesGetN_cached (n : Nat) (s : ChoicesState)
    (c : List ConditionChoice) (h : s.cachedChoices = some c) :
    choicesGetN n s = (List.replicate n c, s, 0) := by
  induction n with
  | zero => rfl
  | succ n ih =>
    have h1 : choicesGet s = (c, s, 0) := by
      unfold choicesGet
      rw [h]
    simp [choicesGetN, h1, ih, List.replicate_succ]

/-- C9: the `choices` binding of `ConditionsWidget` is a
single-evaluation lazy binding: a configured callable is invoked exactly
once, on the first access of the property, and the resolved registry is
cached; any access on a cached state returns the cached registry with no
further invocation and no state change; over any number of accesses from
a fresh callable state, every returned value is the factory's result and
the total invocation count stays 1; the setter replaces the configured
value and resets the cache (the state of a fresh `__init__`). -/
theorem conditionsWidget_choices_lazy :
    (∀ f : Unit → List ConditionChoice,
       choicesGet (initChoicesState (.callable f)) =
         (f (), { origChoices := .callable f,
                  cachedChoices := some (f ()) }, 1))
    ∧ (∀ c : List ConditionChoice,
       choicesGet (initChoicesState (.inst c)) =
         (c, { origChoices := .inst c, cachedChoices := some c }, 0))
    ∧ (∀ (s : ChoicesState) (c : List ConditionChoice),
       s.cachedChoices = some c → choicesGet s = (c, s, 0))
    ∧ (∀ (n : Nat) (f : Unit → List ConditionChoice),
       (∀ v ∈ (choicesGetN (n + 1) (initChoicesState (.callable f))).1,
          v = f ())
       ∧ (choicesGetN (n + 1) (initChoicesState (.callable f))).2.2 = 1)
    ∧ (∀ (s : ChoicesState) (v : ChoicesSource),
       choicesSet s v = initChoicesState v) := by
  refine ⟨fun f => rfl, fun c => rfl, ?_, ?_, fun s v => rfl⟩
  · intro s c h
    unfold choicesGet
    rw [h]
  · intro n f
    have h1 : choicesGet (initChoicesState (.callable f)) =
        (f (), { origChoices := .callable f,
                 cachedChoices := some (f ()) }, 1) := rfl
    have h2 := choicesGetN_cached n
      { origChoices := .callable f, cachedChoices := some (f ()) }
      (f ()) rfl
    have hstep : choicesGetN (n + 1) (initChoicesState (.callable f)) =
        (f () :: List.replicate n (f ()),
         { origChoices := .callable f, cachedChoices := some (f ()) },
         1) := by
      simp [choicesGetN, h1, h2]
    constructor
    · intro v hv
      rw [hstep] at hv
      rcases List.mem_cons.mp hv with hv | hv
      · exact hv
      · exact List.eq_of_mem_replicate hv
    · rw [hstep]

/-- Witness for C9 at a concrete input: a state already holding a cached
(empty) registry returns it unchanged with zero invocations. -/
theorem conditionsWidget_choices_lazy_witness :
    (ChoicesState.mk (.inst []) (some [])).cachedChoices = some []
    ∧ choicesGet (ChoicesState.mk (.inst []) (some [])) =
        ([], ChoicesState.mk (.inst []) (some []), 0) :=
  ⟨rfl, conditionsWidget_choices_lazy.2.2.1 _ [] rfl⟩

theorem conditionErrorsGet_set_self (l : List (Nat × String)) (i : Nat)
    (msg : String) :
    conditionErrorsGet (conditionErrorsSet l i msg) i = some msg := by
  induction l with
  | nil => simp [conditionErrorsSet, conditionErrorsGet]
  | cons e rest ih =>
    obtain ⟨j2, m⟩ := e
    by_cases h : j2 = i
    · subst h
      simp [conditionErrorsSet, conditionErrorsGet]
    · have hbeq : (j2 == i) = false := by simp [h]
      simp only [conditionErrorsSet, hbeq, Bool.false_eq_true, if_false]
      simp only [conditionErrorsGet] at ih ⊢
      rw [List.find?_cons_of_neg]
      · exact ih
      · simp [hbeq]

theorem conditionErrorsGet_set_other (l : List (Nat × String))
    (i j : Nat) (msg : String) (h : j ≠ i) :
    conditionErrorsGet (conditionErrorsSet l i msg) j =
      conditionErrorsGet l j := by
  induction l with
  | nil =>
    have hbeq : (i == j) = false := by simp [Ne.symm h]
    simp [conditionErrorsSet, conditionErrorsGet, hbeq]
  | cons e rest ih =>
    obtain ⟨j2, m⟩ := e
    by_cases h2 : j2 = i
    · subst h2
      have hbeq : (j2 == j) = false := by
        simp
        exact fun e => h e.symm
      simp [conditionErrorsSet, conditionErrorsGet, hbeq]
    · have hbeq2 : (j2 == i) = false := by simp [h2]
      simp only [conditionErrorsSet, hbeq2, Bool.false_eq_true, if_false]
      by_cases h3 : j2 = j
      · subst h3
        simp [conditionErrorsGet]
      · have hbeq3 : (j2 == j) = false := by simp [h3]
        simp only [conditionErrorsGet] at ih ⊢
        rw [List.find?_cons_of_neg, List.find?_cons_of_neg]
        · exact ih
        · simp [hbeq3]
        · simp [hbeq3]

/-- C5: `ConditionsField.to_python` reports exactly one row's failure per
call: a choice-not-found, operator-not-found, or invalid-value outcome
records its message in the widget's `condition_errors` dict keyed by the
failing row's index (using the `value_required` message when the error is
tagged `code='required'`), leaves every other index untouched, and raises
a `ValidationError` with code `condition_errors`; an invalid mode instead
raises with code `invalid_mode` and records nothing. -/
theorem to_python_error_reporting :
    (∀ (errors : List (Nat × String)) (outcome : DeserializeOutcome)
       (m : String) (i : Nat) (c : Option String),
       (outcome = .choiceNotFound m i c ∨
        outcome = .operatorNotFound m i c ∨
        outcome = .invalidValue m i c) →
       (to_python false outcome errors).1 =
         .validationError msgConditionErrors "condition_errors"
       ∧ (to_python false outcome errors).2 =
           conditionErrorsSet errors i
             (if c == some "required" then msgValueRequired else m)
       ∧ conditionErrorsGet (to_python false outcome errors).2 i =
           some (if c == some "required" then msgValueRequired else m)
       ∧ ∀ j, j ≠ i →
           conditionErrorsGet (to_python false outcome errors).2 j =
             conditionErrorsGet errors j)
    ∧ (∀ (errors : List (Nat × String)) (m : String),
       to_python false (.invalidMode m) errors =
         (.validationError m "invalid_mode", errors)) := by
  refine ⟨?_, fun errors m => rfl⟩
  intro errors outcome m i c h
  rcases h with h | h | h <;> subst h <;>
    exact ⟨rfl, rfl, conditionErrorsGet_set_self errors i _,
           fun j hj => conditionErrorsGet_set_other errors i j _ hj⟩

/-- Witness for C5 at a concrete input: a choice-not-found error for
row 2 raises with code `condition_errors` and records its message under
index 2. -/
theorem to_python_error_reporting_witness :
    (to_python false (.choiceNotFound "nope" 2 none) []).1 =
      .validationError msgConditionErrors "condition_errors"
    ∧ conditionErrorsGet
        (to_python false (.choiceNotFound "nope" 2 none) []).2 2 =
        some "nope" :=
  have h := to_python_error_reporting.1 []
    (.choiceNotFound "nope" 2 none) "nope" 2 none (Or.inl rfl)
  ⟨h.1, by simpa using h.2.2.1⟩

end Djblets
